import Mathlib

/-!
Verification development for the `energy_data` download scripts
(`download_scripts_SMARD.py`, `download_scripts_UK.py`).

Modelling conventions.  Local wall-clock time is measured in minutes as an
`Int`, with minute 0 falling on a Monday 00:00 local time (so Mondays 00:00
are exactly the multiples of 10080 and local midnights the multiples of
1440).  A pandas cell value is an `Option ℚ`, `none` standing for NaN
("no data").  Operations that can raise a pandas exception (a `ValueError`
from a length-mismatched slice assignment, an `IndexError` from an
out-of-range positional index, a `TypeError` from slicing `None`) are
modelled as `Option`-valued (or `Except`-valued), `none`/`error` standing
for the raised exception.  HTTP responses are supplied as oracles; a `none`
response models a non-200 status for that fetch unit.
-/

/-- A time-indexed single-column table: rows of (local timestamp, value). -/
abbrev Table := List (Int × Option ℚ)

/-- NaN-propagating addition of two pandas cells. -/
def optAdd : Option ℚ → Option ℚ → Option ℚ
  | some a, some b => some (a + b)
  | _, _ => none

/-- NaN-propagating subtraction of two pandas cells. -/
def optSub : Option ℚ → Option ℚ → Option ℚ
  | some a, some b => some (a - b)
  | _, _ => none

/-- The Irish (smartgriddashboard) slot-alignment step, shared by
`_download_IE_per_type_data` (lines 313-325), `_download_IE_demand_data`
(lines 365-377) and `_download_GB_IE_flows` (lines 448-460) of
`download_scripts_UK.py`.  `daySlots` is `len(date_range)`, the number of
15-minute slots the calendar day really has in `Europe/Dublin` local time
(92 on a spring-forward day, 96 normally, 100 on a fall-back day), and
`input` is the provider's flat `Value` column for the day.  The column
starts as all-NaN; the 96 branch assigns the whole column, the 92 branch
assigns input rows 0-3 to slots 0-3 and input rows 8.. to slots 4.., the
100 branch assigns input rows 0-3 to slots 0-3 and input rows 8.. to slots
12...  Each pandas slice assignment requires the two sides to have equal
length, so every branch raises (`none`) unless the input has exactly 96
values. -/
def alignIE (daySlots : Nat) (input : List ℚ) : Option (List (Option ℚ)) :=
  if daySlots = 96 then
    if input.length = 96 then some (input.map some) else none
  else if daySlots = 92 then
    if input.length = 96 then some ((input.take 4 ++ input.drop 8).map some) else none
  else if daySlots = 100 then
    if input.length = 96 then
      some ((input.take 4).map some ++ List.replicate 8 none ++ (input.drop 8).map some)
    else none
  else some (List.replicate daySlots none)

theorem alignIE_length {daySlots : Nat} {input : List ℚ} {col : List (Option ℚ)}
    (h : alignIE daySlots input = some col) : col.length = daySlots := by
  unfold alignIE at h
  split at h
  · split at h
    · cases h
      simp_all
    · cases h
  · split at h
    · split at h
      · cases h
        simp_all
      · cases h
    · split at h
      · split at h
        · cases h
          simp_all
        · cases h
      · cases h
        simp_all

/-- Claim C1, counterexample.  The claim supposes a spring-forward day on
which the provider returns 92 values.  A spring-forward day in the Irish
path has `len(date_range) = 92`, and on such a day the alignment's slice
assignment `df[col].iloc[4:] = data["Value"].iloc[8:].values` needs a
96-row input; with a 92-value input the lengths mismatch and pandas raises
a `ValueError`, so no aligned table (of any slot count, let alone 96) is
produced. -/
theorem C1_counterexample :
    alignIE 92 (List.replicate 92 (0 : ℚ)) = none := by
  rfl

/-- Claim C1, amended.  On a spring-forward day the local 15-minute index
has 92 slots (the non-existent hour is not representable), and the code
requires the provider to return 96 values (a fixed-clock day including the
4 empty rows 4-7 of the skipped hour).  It assigns input values 0-3 to
slots 0-3 and input values 8-95 to slots 4-91, skipping exactly the 4
input rows 4-7, so the aligned result has 92 slots and every slot carries
a provider value (no slot is left as no-data). -/
theorem C1_amended_thm (input : List ℚ) (h : input.length = 96) :
    alignIE 92 input = some ((input.take 4 ++ input.drop 8).map some) ∧
    ((input.take 4 ++ input.drop 8).map (some : ℚ → Option ℚ)).length = 92 ∧
    (∀ v ∈ (input.take 4 ++ input.drop 8).map (some : ℚ → Option ℚ), v ≠ none) ∧
    (input.take 4 ++ input.drop 8).length + 4 = input.length := by
  refine ⟨?_, ?_, ?_, ?_⟩
  · simp [alignIE, h]
  · simp [h]
  · intro v hv
    rcases List.mem_map.mp hv with ⟨x, _, rfl⟩
    simp
  · simp [h]

/-- Witness for the amended claim C1 at a concrete 96-value input. -/
theorem C1_witness :
    alignIE 92 (List.replicate 96 (1 : ℚ)) =
      some (((List.replicate 96 (1 : ℚ)).take 4 ++
        (List.replicate 96 (1 : ℚ)).drop 8).map some) ∧
    (((List.replicate 96 (1 : ℚ)).take 4 ++
        (List.replicate 96 (1 : ℚ)).drop 8).map (some : ℚ → Option ℚ)).length = 92 ∧
    ((List.replicate 96 (1 : ℚ)).take 4 ++ (List.replicate 96 (1 : ℚ)).drop 8).length + 4 =
      (List.replicate 96 (1 : ℚ)).length :=
  have h := C1_amended_thm (List.replicate 96 (1 : ℚ)) (by simp)
  ⟨h.1, h.2.1, h.2.2.2⟩

/-- Claim C2, counterexample.  The claim supposes the provider returns 100
values on a fall-back day.  A fall-back day in the Irish path has
`len(date_range) = 100`, and on such a day the alignment's slice
assignment `df[col].iloc[12:] = data["Value"].iloc[8:].values` has an
88-slot left side, so it needs a 96-row input; with a 100-value input the
lengths mismatch and pandas raises a `ValueError`, so no aligned table
(and in particular no 96-slot table) is produced. -/
theorem C2_counterexample :
    alignIE 100 (List.replicate 100 (0 : ℚ)) = none := by
  rfl

/-- Claim C2, amended.  On a fall-back day the local 15-minute index has
100 slots, and the code requires the provider to return 96 values.  It
assigns input values 0-3 to slots 0-3 and input values 8-95 to slots
12-99, discarding exactly the 4 input values 4-7 (one repeated-hour
block) and leaving exactly the 8 slots 4-11 (both local occurrences of
the repeated hour) as no-data. -/
theorem C2_amended_thm (input : List ℚ) (h : input.length = 96) :
    alignIE 100 input =
      some ((input.take 4).map some ++ List.replicate 8 none ++ (input.drop 8).map some) ∧
    ((input.take 4).map (some : ℚ → Option ℚ) ++ List.replicate 8 none ++
      (input.drop 8).map some).length = 100 ∧
    ((input.take 4).map (some : ℚ → Option ℚ) ++ List.replicate 8 none ++
      (input.drop 8).map some).countP (Option.isNone) = 8 ∧
    ((input.take 4).length + (input.drop 8).length) + 4 = input.length := by
  refine ⟨?_, ?_, ?_, ?_⟩
  · simp [alignIE, h]
  · simp [h]
  · have h4 : ∀ l : List ℚ,
        (l.map (some : ℚ → Option ℚ)).countP Option.isNone = 0 := by
      intro l
      simp [List.countP_map, Function.comp_def]
    rw [List.countP_append, List.countP_append, h4, h4]
    rfl
  · simp [h]

/-- Witness for the amended claim C2 at a concrete 96-value input. -/
theorem C2_witness :
    alignIE 100 (List.replicate 96 (2 : ℚ)) =
      some (((List.replicate 96 (2 : ℚ)).take 4).map some ++ List.replicate 8 none ++
        ((List.replicate 96 (2 : ℚ)).drop 8).map some) ∧
    (((List.replicate 96 (2 : ℚ)).take 4).map (some : ℚ → Option ℚ) ++
      List.replicate 8 none ++ ((List.replicate 96 (2 : ℚ)).drop 8).map some).length = 100 ∧
    (((List.replicate 96 (2 : ℚ)).take 4).map (some : ℚ → Option ℚ) ++
      List.replicate 8 none ++
      ((List.replicate 96 (2 : ℚ)).drop 8).map some).countP (Option.isNone) = 8 ∧
    (((List.replicate 96 (2 : ℚ)).take 4).length + ((List.replicate 96 (2 : ℚ)).drop 8).length) + 4 =
      (List.replicate 96 (2 : ℚ)).length :=
  C2_amended_thm (List.replicate 96 (2 : ℚ)) (by simp)

/-- The derived `GB > IE` column of `_download_GB_IE_flows`
(`download_scripts_UK.py` lines 462-477): the raw total flow is
`Inter EWIC + Inter Moyle` (NaN-propagating), and the column is
`np.where(mask, np.where(total_flow > 0, total_flow, 0), np.nan)`. -/
def gbToIE (ewic moyle : Option ℚ) : Option ℚ :=
  (optAdd ewic moyle).map (fun f => if 0 < f then f else 0)

/-- The derived `IE > GB` column of `_download_GB_IE_flows`
(`download_scripts_UK.py` lines 462-477):
`np.where(mask, np.where(total_flow < 0, -total_flow, 0), np.nan)`. -/
def ieToGB (ewic moyle : Option ℚ) : Option ℚ :=
  (optAdd ewic moyle).map (fun f => if f < 0 then -f else 0)

/-- Claim C5.  At every timestamp of a GB-IE flows request: where the raw
total flow `f = Inter EWIC + Inter Moyle` is present, the derived columns
are `GB > IE = max(f, 0)` and `IE > GB = max(-f, 0)`; where either raw
input is absent, both derived columns are absent (NaN), not zero. -/
theorem C5_thm (ewic moyle : Option ℚ) :
    (∀ a b : ℚ, ewic = some a → moyle = some b →
      gbToIE ewic moyle = some (max (a + b) 0) ∧
      ieToGB ewic moyle = some (max (-(a + b)) 0)) ∧
    (ewic = none → gbToIE ewic moyle = none ∧ ieToGB ewic moyle = none) ∧
    (moyle = none → gbToIE ewic moyle = none ∧ ieToGB ewic moyle = none) := by
  refine ⟨?_, ?_, ?_⟩
  · rintro a b rfl rfl
    constructor
    · simp only [gbToIE, optAdd, Option.map_some']
      rcases le_or_lt (a + b) 0 with hle | hlt
      · simp [not_lt.mpr hle, max_eq_right hle]
      · simp [hlt, max_eq_left hlt.le]
    · simp only [ieToGB, optAdd, Option.map_some']
      rcases le_or_lt 0 (a + b) with hle | hlt
      · rw [if_neg (not_lt.mpr hle), max_eq_right (by linarith)]
      · rw [if_pos hlt, max_eq_left (by linarith)]
  · rintro rfl
    exact ⟨rfl, rfl⟩
  · rintro rfl
    cases ewic <;> exact ⟨rfl, rfl⟩

/-- Witness for claim C5: a present raw flow of `3 + (-5)` and an absent
one at a concrete timestamp. -/
theorem C5_witness :
    (gbToIE (some 3) (some (-5)) = some (max ((3 : ℚ) + (-5)) 0) ∧
      ieToGB (some 3) (some (-5)) = some (max (-((3 : ℚ) + (-5))) 0)) ∧
    (gbToIE none (some 1) = none ∧ ieToGB none (some 1) = none) :=
  ⟨(C5_thm (some 3) (some (-5))).1 3 (-5) rfl rfl,
   (C5_thm none (some 1)).2.1 rfl⟩

/-- The `.normalize()` of a pandas timestamp: floor to local midnight
(minutes model: floor to a multiple of 1440). -/
def pdNormalize (t : Int) : Int := t.fdiv 1440 * 1440

/-- The first `W-MON` anchor at or after `t` (minutes model: ceil to a
multiple of 10080, minute 0 being a Monday 00:00). -/
def mondayOnOrAfter (t : Int) : Int := (t + 10079).fdiv 10080 * 10080

/-- The `pd.date_range(start=(start - Timedelta(weeks=1)).normalize(),
end=end, freq="W-MON")` boundary list of `download_day_ahead_prices`
(`download_scripts_SMARD.py` lines 115-121): Monday-anchored boundaries
from one week before `start`'s normalized date through `end`. -/
def weekRange (s e : Int) : List Int :=
  let first := mondayOnOrAfter (pdNormalize (s - 10080))
  if e < first then []
  else (List.range (((e - first).fdiv 10080).toNat + 1)).map (fun i => first + 10080 * i)

/-- The fetch-unit sequence of the SMARD week-granularity downloads
(`download_scripts_SMARD.py` lines 115-125): the `W-MON` boundary list,
with the 0th element removed when `len(weeks) > 1 and weeks[1] <= start`. -/
def fetchWeeks (s e : Int) : List Int :=
  let w := weekRange s e
  if 1 < w.length ∧ w.getD 1 0 ≤ s then w.drop 1 else w

/-- Claim C4.  For every week-granularity request whose start is a Monday
00:00 local time (a multiple of 10080 minutes) and whose end is
`start + 6 days 23 hours 59 minutes`, the computed fetch-unit sequence is
exactly `[start]`: the boundary list is `[start - 1 week, start]` and the
drop rule fires because the second boundary equals `start`, so no extra
preceding week is fetched. -/
theorem C4_thm (s : Int) (h : s % 10080 = 0) :
    fetchWeeks s (s + 10079) = [s] := by
  obtain ⟨k, rfl⟩ : ∃ k, s = 10080 * k := by
    obtain ⟨k, hk⟩ := Int.dvd_of_emod_eq_zero h
    exact ⟨k, hk⟩
  have hnorm : pdNormalize (10080 * k - 10080) = 10080 * k - 10080 := by
    unfold pdNormalize
    have : 10080 * k - 10080 = (7 * k - 7) * 1440 := by ring
    rw [this, Int.mul_fdiv_cancel _ (by norm_num)]
  have hmon : mondayOnOrAfter (10080 * k - 10080) = 10080 * k - 10080 := by
    unfold mondayOnOrAfter
    rw [Int.fdiv_eq_ediv _ (by norm_num)]
    have h1 : 10080 * k - 10080 + 10079 = 10079 + (k - 1) * 10080 := by ring
    rw [h1, Int.add_mul_ediv_right _ _ (by norm_num)]
    have h79 : (10079 : Int) / 10080 = 0 := by decide
    rw [h79]
    ring
  have hw : weekRange (10080 * k) (10080 * k + 10079) =
      [10080 * k - 10080, 10080 * k] := by
    unfold weekRange
    rw [hnorm, hmon]
    have hcount : (10080 * k + 10079 - (10080 * k - 10080)).fdiv 10080 = 1 := by
      have h2 : 10080 * k + 10079 - (10080 * k - 10080) = 20159 := by ring
      rw [h2]
      decide
    rw [if_neg (by omega), hcount]
    have hr : List.range ((1 : Int).toNat + 1) = [0, 1] := rfl
    rw [hr]
    simp
  unfold fetchWeeks
  rw [hw]
  rw [if_pos (by constructor <;> simp)]
  rfl

/-- Witness for claim C4 at the concrete Monday `s = 20160`. -/
theorem C4_witness : fetchWeeks 20160 (20160 + 10079) = [20160] :=
  C4_thm 20160 (by decide)

/-- One step of the accumulation loop shared by all top-level downloads
(`if df is None: df = data else: df = pd.concat([df, data])`,
e.g. `download_scripts_SMARD.py` lines 136-139).  `pd.concat` silently
drops a `None` member, so a failed fetch unit contributes nothing. -/
def concatOpt : Option Table → Option Table → Option Table
  | none, d => d
  | some t, none => some t
  | some t, some u => some (t ++ u)

/-- The accumulated result of the weekly fetch loop of
`download_day_ahead_prices` (`download_scripts_SMARD.py` lines 127-139),
starting from `df = None`. -/
def assembleWeeks (ts : List (Option Table)) : Option Table :=
  ts.foldl concatOpt none

/-- The final `df[start:end]` label slice (inclusive on both ends for a
pandas `DatetimeIndex`), e.g. `download_scripts_SMARD.py` line 142 and
`download_scripts_UK.py` line 283. -/
def sliceTable (s e : Int) (t : Table) : Table :=
  t.filter (fun r => decide (s ≤ r.1) && decide (r.1 ≤ e))

/-- `download_day_ahead_prices` (`download_scripts_SMARD.py` lines
93-142): fetch each week of `fetchWeeks`, accumulate with `pd.concat`,
then slice to `[start, end]`.  `resp week = none` models a non-200 status
for that week (the inner function returns `None`); if every week fails the
accumulated `df` is `None` and `df[start:end]` raises a `TypeError`,
modelled as `Except.error ()`. -/
def download_day_ahead_prices (s e : Int) (resp : Int → Option Table) : Except Unit Table :=
  match assembleWeeks ((fetchWeeks s e).map resp) with
  | none => Except.error ()
  | some t => Except.ok (sliceTable s e t)

/-- The `pd.date_range(start, end, normalize=True)` day list of the
British/Irish top-level downloads (`download_scripts_UK.py` lines 66-71,
104-109, 223-228, 261-266, 395-400): one local midnight per calendar date
from `start`'s date through `end`'s date inclusive. -/
def dayRange (s e : Int) : List Int :=
  let d0 := pdNormalize s
  let d1 := pdNormalize e
  if d1 < d0 then []
  else (List.range (((d1 - d0).fdiv 1440).toNat + 1)).map (fun i => d0 + 1440 * i)

/-- One day of `_download_IE_demand_data` (`download_scripts_UK.py`
lines 343-379).  `idx` is the day's true local 15-minute index
(`date_range`), built before the HTTP request; the `Actual Load` column
starts all-NaN.  A `none` response (non-200) leaves the column untouched;
a `some` response is aligned by `alignIE`. -/
def IE_demand_day (idx : List Int) (resp : Option (List ℚ)) : Option Table :=
  match resp with
  | none => some (idx.map (fun t => (t, none)))
  | some input => (alignIE idx.length input).map (fun col => idx.zip col)

/-- One positional write of the British settlement-period scatter
(`df[...].iloc[data_index] = ...`, `download_scripts_UK.py` lines 202-205):
`data_index = SettlementPeriod - 1` as a signed integer, so period 0 wraps
to the last row (Python negative indexing) and a period beyond the day's
slot count raises an `IndexError` (`none`). -/
def gbSetSlot (n : Nat) (col : List (Option ℚ)) (row : Nat × ℚ) : Option (List (Option ℚ)) :=
  if row.1 = 0 then
    if n = 0 then none else some (col.set (n - 1) (some row.2))
  else if row.1 - 1 < n then some (col.set (row.1 - 1) (some row.2)) else none

/-- The whole settlement-period scatter of `_download_GB_demand_data` onto
an all-NaN column of `n` slots.  The code sorts rows by period first; the
model applies the writes in the given order, which reaches the same cells
(each row writes to the position its own period number determines). -/
def gbScatter (n : Nat) (rows : List (Nat × ℚ)) : Option (List (Option ℚ)) :=
  rows.foldl (fun acc row => acc.bind (fun col => gbSetSlot n col row)) (some (List.replicate n none))

/-- One day of `_download_GB_demand_data` (`download_scripts_UK.py` lines
173-207).  `idx` is the day's true local 30-minute index, built before the
HTTP request; `resp` is the parsed CSV as (SettlementPeriod, Quantity)
rows, `none` modelling a non-200 status. -/
def GB_demand_day (idx : List Int) (resp : Option (List (Nat × ℚ))) : Option Table :=
  match resp with
  | none => some (idx.map (fun t => (t, none)))
  | some rows => (gbScatter idx.length rows).map (fun col => idx.zip col)

/-- One day of `_download_GB_IE_flows` (`download_scripts_UK.py` lines
420-478).  `resp` carries the `INTER_EWIC` and `INTER_MOYLE` value lists
filtered from the single JSON response; each is aligned by `alignIE`, and
the two directional columns are derived per row by `gbToIE`/`ieToGB`.  A
`none` response leaves both raw columns all-NaN, so both derived columns
are all-NaN as well. -/
def GB_IE_flows_day (idx : List Int) (resp : Option (List ℚ × List ℚ)) :
    Option (List (Int × (Option ℚ × Option ℚ))) :=
  let cols : Option (List (Option ℚ) × List (Option ℚ)) :=
    match resp with
    | none => some (List.replicate idx.length none, List.replicate idx.length none)
    | some p =>
      match alignIE idx.length p.1, alignIE idx.length p.2 with
      | some a, some b => some (a, b)
      | _, _ => none
  cols.map (fun p => idx.zip (List.zipWith (fun x y => (gbToIE x y, ieToGB x y)) p.1 p.2))

/-- `download_IE_demand_data` (`download_scripts_UK.py` lines 248-283):
one `IE_demand_day` per calendar date, `pd.concat` of the day tables in
order, then the `df[start:end]` slice.  `dayIdx d` is the true local
15-minute index of the day starting at midnight `d`. -/
def download_IE_demand_data (s e : Int) (dayIdx : Int → List Int)
    (resp : Int → Option (List ℚ)) : Option Table :=
  if dayRange s e = [] then none
  else ((dayRange s e).mapM (fun d => IE_demand_day (dayIdx d) (resp d))).map
    (fun tables => sliceTable s e tables.flatten)

/-- `download_GB_demand_data` (`download_scripts_UK.py` lines 91-126):
one `GB_demand_day` per calendar date, `pd.concat`, then `df[start:end]`. -/
def download_GB_demand_data (s e : Int) (dayIdx : Int → List Int)
    (resp : Int → Option (List (Nat × ℚ))) : Option Table :=
  if dayRange s e = [] then none
  else ((dayRange s e).mapM (fun d => GB_demand_day (dayIdx d) (resp d))).map
    (fun tables => sliceTable s e tables.flatten)

theorem foldl_concatOpt_some (ts : List (Option Table)) (a : Table) :
    ts.foldl concatOpt (some a) = some (a ++ (ts.filterMap id).flatten) := by
  induction ts generalizing a with
  | nil => simp
  | cons x ts ih =>
    cases x with
    | none => simpa using ih a
    | some u =>
      simp only [List.foldl_cons, concatOpt, List.filterMap_cons_some, id,
        List.flatten_cons]
      rw [ih (a ++ u)]
      simp

theorem assembleWeeks_eq (ts : List (Option Table)) :
    assembleWeeks ts =
      if ts.filterMap id = [] then none else some (ts.filterMap id).flatten := by
  induction ts with
  | nil => rfl
  | cons x ts ih =>
    cases x with
    | none =>
      simpa [assembleWeeks, List.filterMap_cons_none] using ih
    | some u =>
      simp only [assembleWeeks, List.foldl_cons, concatOpt, List.filterMap_cons_some, id]
      rw [foldl_concatOpt_some]
      simp

theorem filterMap_eraseIdx_of_none {α β : Type} (f : α → Option β) :
    ∀ (l : List α) (i : Nat) (w : α), l.get? i = some w → f w = none →
      l.filterMap f = (l.eraseIdx i).filterMap f := by
  intro l
  induction l with
  | nil => intro i w h; cases h
  | cons x rest ih =>
    intro i w h hf
    cases i with
    | zero =>
      cases h
      simp [List.filterMap_cons, hf]
    | succ j =>
      have hx := ih j w h hf
      simp only [List.eraseIdx_cons_succ, List.filterMap_cons]
      cases f x <;> simp [hx]

/-- Claim C6.  Whenever the HTTP request for one fetch unit returns a
non-200 status (`resp w = none`) while some other unit of the range
succeeds, the top-level price download surfaces no exception and returns
exactly the successful units' data (concatenated in order, then sliced):
the failed unit is a silent hole, contributing nothing — erasing it from
the fetch sequence leaves the collected data unchanged.  The model issues
exactly one request per fetch unit (one `resp` application each), so a
failure is never retried. -/
theorem C6_thm (s e : Int) (resp : Int → Option Table) (i : Nat) (w : Int)
    (hi : (fetchWeeks s e).get? i = some w) (hfail : resp w = none)
    (hok : ∃ v ∈ fetchWeeks s e, resp v ≠ none) :
    download_day_ahead_prices s e resp =
      Except.ok (sliceTable s e (((fetchWeeks s e).filterMap resp).flatten)) ∧
    (fetchWeeks s e).filterMap resp = ((fetchWeeks s e).eraseIdx i).filterMap resp := by
  have hmap : ((fetchWeeks s e).map resp).filterMap id = (fetchWeeks s e).filterMap resp := by
    rw [List.filterMap_map]
    rfl
  have hne : (fetchWeeks s e).filterMap resp ≠ [] := by
    obtain ⟨v, hv, hvs⟩ := hok
    obtain ⟨u, hu⟩ := Option.ne_none_iff_exists'.mp hvs
    exact List.ne_nil_of_mem (List.mem_filterMap.mpr ⟨v, hv, hu⟩)
  constructor
  · unfold download_day_ahead_prices
    rw [assembleWeeks_eq, hmap, if_neg hne]
  · exact filterMap_eraseIdx_of_none resp _ i w hi hfail

/-- A concrete two-week response oracle for the C6 witness: the week at
10080 fails (non-200), the week at 20160 succeeds. -/
def respC6 : Int → Option Table :=
  fun w => if w = 20160 then some [(20160, some 5)] else none

/-- Witness for claim C6: over the two-week range `[10080, 30239]` with
the first week failing, the download returns the second week's data. -/
theorem C6_witness :
    download_day_ahead_prices 10080 30239 respC6 =
      Except.ok (sliceTable 10080 30239 (((fetchWeeks 10080 30239).filterMap respC6).flatten)) ∧
    (fetchWeeks 10080 30239).filterMap respC6 =
      ((fetchWeeks 10080 30239).eraseIdx 0).filterMap respC6 :=
  C6_thm 10080 30239 respC6 0 10080 (by decide) (by decide)
    ⟨20160, by decide, by decide⟩

theorem mem_sliceTable {s e : Int} {u : Table} {r : Int × Option ℚ} :
    r ∈ sliceTable s e u ↔ r ∈ u ∧ s ≤ r.1 ∧ r.1 ≤ e := by
  simp [sliceTable, List.mem_filter, and_assoc]

/-- Claim C7.  For every `[start, end]` the final `df[start:end]` label
slice keeps exactly the concatenated rows whose timestamp lies in
`[start, end]` inclusive (so `start` and `end` themselves are retained
when present and everything outside is removed), and consequently every
row of a successful top-level download — week-granularity
`download_day_ahead_prices` as well as day-granularity
`download_IE_demand_data` and `download_GB_demand_data` — has its
timestamp inside `[start, end]`. -/
theorem C7_thm (s e : Int) :
    (∀ (u : Table) (r : Int × Option ℚ),
      r ∈ sliceTable s e u ↔ r ∈ u ∧ s ≤ r.1 ∧ r.1 ≤ e) ∧
    (∀ (resp : Int → Option Table) (t : Table),
      download_day_ahead_prices s e resp = Except.ok t →
        ∀ r ∈ t, s ≤ r.1 ∧ r.1 ≤ e) ∧
    (∀ (dayIdx : Int → List Int) (resp : Int → Option (List ℚ)) (t : Table),
      download_IE_demand_data s e dayIdx resp = some t →
        ∀ r ∈ t, s ≤ r.1 ∧ r.1 ≤ e) ∧
    (∀ (dayIdx : Int → List Int) (resp : Int → Option (List (Nat × ℚ))) (t : Table),
      download_GB_demand_data s e dayIdx resp = some t →
        ∀ r ∈ t, s ≤ r.1 ∧ r.1 ≤ e) := by
  refine ⟨fun u r => mem_sliceTable, ?_, ?_, ?_⟩
  · intro resp t ht r hr
    unfold download_day_ahead_prices at ht
    cases hassemble : assembleWeeks ((fetchWeeks s e).map resp) with
    | none => rw [hassemble] at ht; cases ht
    | some u =>
      rw [hassemble] at ht
      injection ht with h1
      subst h1
      exact (mem_sliceTable.mp hr).2
  · intro dayIdx resp t ht r hr
    unfold download_IE_demand_data at ht
    split at ht
    · cases ht
    · rcases Option.map_eq_some'.mp ht with ⟨tables, _, rfl⟩
      exact (mem_sliceTable.mp hr).2
  · intro dayIdx resp t ht r hr
    unfold download_GB_demand_data at ht
    split at ht
    · cases ht
    · rcases Option.map_eq_some'.mp ht with ⟨tables, _, rfl⟩
      exact (mem_sliceTable.mp hr).2

/-- A concrete one-week response oracle for the C7 witness. -/
def respC7 : Int → Option Table := fun w => if w = 0 then some [(5, some 1)] else none

/-- Witness for claim C7: the slice-membership characterization at a
concrete row, and in-range timestamps of concrete successful price,
Irish-demand and British-demand downloads. -/
theorem C7_witness :
    (((5 : Int), some (1 : ℚ)) ∈ sliceTable 0 10 [((5 : Int), some (1 : ℚ))] ↔
      ((5 : Int), some (1 : ℚ)) ∈ ([((5 : Int), some (1 : ℚ))] : Table) ∧
        (0 : Int) ≤ 5 ∧ (5 : Int) ≤ 10) ∧
    ((0 : Int) ≤ 5 ∧ (5 : Int) ≤ 10079) ∧
    ((0 : Int) ≤ 0 ∧ (0 : Int) ≤ 1439) ∧
    ((0 : Int) ≤ 0 ∧ (0 : Int) ≤ 1439) :=
  ⟨(C7_thm 0 10).1 [((5 : Int), some (1 : ℚ))] ((5 : Int), some (1 : ℚ)),
   (C7_thm 0 10079).2.1 respC7 [(5, some 1)] (by rfl) (5, some 1) (by decide),
   (C7_thm 0 1439).2.2.1 (fun d => [d]) (fun _ => none) [(0, none)]
     (by rfl) (0, none) (by decide),
   (C7_thm 0 1439).2.2.2 (fun d => [d]) (fun _ => none) [(0, none)]
     (by rfl) (0, none) (by decide)⟩

theorem zipWith_replicate_both {α β γ : Type} (f : α → β → γ) (n : Nat) (a : α) (b : β) :
    List.zipWith f (List.replicate n a) (List.replicate n b) = List.replicate n (f a b) := by
  induction n with
  | zero => rfl
  | succ m ih => simp [List.replicate_succ, ih]

theorem zip_replicate_self {α β : Type} (idx : List α) (c : β) :
    idx.zip (List.replicate idx.length c) = idx.map (fun t => (t, c)) := by
  induction idx with
  | nil => rfl
  | cons x rest ih => simp [List.replicate_succ, ih]

theorem gbSetSlot_length {n : Nat} {col col2 : List (Option ℚ)} {row : Nat × ℚ}
    (hlen : col.length = n) (h : gbSetSlot n col row = some col2) : col2.length = n := by
  unfold gbSetSlot at h
  split at h
  · split at h
    · cases h
    · injection h with h1
      subst h1
      simp [hlen]
  · split at h
    · injection h with h1
      subst h1
      simp [hlen]
    · cases h

theorem gbScatter_foldl_length {n : Nat} :
    ∀ (rows : List (Nat × ℚ)) (acc : Option (List (Option ℚ))) (col : List (Option ℚ)),
      (∀ c, acc = some c → c.length = n) →
      rows.foldl (fun a row => a.bind (fun cl => gbSetSlot n cl row)) acc = some col →
      col.length = n := by
  intro rows
  induction rows with
  | nil =>
    intro acc col hacc h
    exact hacc col h
  | cons r rest ih =>
    intro acc col hacc h
    refine ih _ col ?_ h
    intro c hc
    cases acc with
    | none => cases hc
    | some c0 => exact gbSetSlot_length (hacc c0 rfl) (by simpa using hc)

theorem gbScatter_length {n : Nat} {rows : List (Nat × ℚ)} {col : List (Option ℚ)}
    (h : gbScatter n rows = some col) : col.length = n := by
  refine gbScatter_foldl_length rows (some (List.replicate n none)) col ?_ h
  intro c hc
  injection hc with h1
  subst h1
  simp

/-- Claim C10.  Each per-day download of the British/Irish providers
builds the day's full local-time index before the HTTP request and keeps
it unconditionally: on a failed (non-200) request the returned table still
has one row per slot of the day, with every value no-data (for the flows
table, both derived columns no-data) — a hole is never a missing row; and
every table these per-day functions return has exactly the precomputed day
index as its timestamp column. -/
theorem C10_thm (idx : List Int) :
    IE_demand_day idx none = some (idx.map (fun t => (t, none))) ∧
    GB_demand_day idx none = some (idx.map (fun t => (t, none))) ∧
    GB_IE_flows_day idx none = some (idx.map (fun t => (t, (none, none)))) ∧
    (∀ (resp : Option (List ℚ)) (t : Table),
      IE_demand_day idx resp = some t → t.map Prod.fst = idx) ∧
    (∀ (resp : Option (List (Nat × ℚ))) (t : Table),
      GB_demand_day idx resp = some t → t.map Prod.fst = idx) ∧
    (∀ (resp : Option (List ℚ × List ℚ)) (t : List (Int × (Option ℚ × Option ℚ))),
      GB_IE_flows_day idx resp = some t → t.map Prod.fst = idx) := by
  refine ⟨rfl, rfl, ?_, ?_, ?_, ?_⟩
  · unfold GB_IE_flows_day
    simp only [Option.map_some']
    rw [zipWith_replicate_both, zip_replicate_self]
    rfl
  · intro resp t ht
    cases resp with
    | none =>
      injection ht with h1
      subst h1
      simp [List.map_map, Function.comp_def]
    | some input =>
      rcases Option.map_eq_some'.mp ht with ⟨col, hcol, rfl⟩
      exact List.map_fst_zip idx col (le_of_eq (alignIE_length hcol).symm)
  · intro resp t ht
    cases resp with
    | none =>
      injection ht with h1
      subst h1
      simp [List.map_map, Function.comp_def]
    | some rows =>
      rcases Option.map_eq_some'.mp ht with ⟨col, hcol, rfl⟩
      exact List.map_fst_zip idx col (le_of_eq (gbScatter_length hcol).symm)
  · intro resp t ht
    unfold GB_IE_flows_day at ht
    cases resp with
    | none =>
      simp only [Option.map_some'] at ht
      injection ht with h1
      subst h1
      rw [zipWith_replicate_both, zip_replicate_self]
      simp [List.map_map, Function.comp_def]
    | some p =>
      simp only at ht
      cases ha : alignIE idx.length p.1 with
      | none => rw [ha] at ht; cases ht
      | some a =>
        cases hb : alignIE idx.length p.2 with
        | none => rw [ha, hb] at ht; cases ht
        | some b =>
          rw [ha, hb] at ht
          simp only [Option.map_some'] at ht
          injection ht with h1
          subst h1
          refine List.map_fst_zip idx _ ?_
          rw [List.length_zipWith, alignIE_length ha, alignIE_length hb]
          simp

/-- Witness for claim C10 at the concrete two-slot day index `[0, 15]`,
with a failed request (`none` response) for each of the three per-day
functions. -/
theorem C10_witness :
    ([((0 : Int), (none : Option ℚ)), ((15 : Int), none)]).map Prod.fst = [0, 15] ∧
    ([((0 : Int), (none : Option ℚ)), ((15 : Int), none)]).map Prod.fst = [0, 15] ∧
    ([((0 : Int), ((none : Option ℚ), (none : Option ℚ))),
      ((15 : Int), (none, none))]).map Prod.fst = [0, 15] :=
  ⟨(C10_thm [0, 15]).2.2.2.1 none _ rfl,
   (C10_thm [0, 15]).2.2.2.2.1 none _ rfl,
   (C10_thm [0, 15]).2.2.2.2.2 none _ rfl⟩

/-- Substring test on character lists: `pat` occurs contiguously in `l`
(the Python `in` operator on strings). -/
def charListContains : List Char → List Char → Bool
  | [], pat => pat.isEmpty
  | x :: rest, pat => pat.isPrefixOf (x :: rest) || charListContains rest pat

/-- The `"consumption" in str(column).lower()` test of
`download_DE_per_type_data` (`download_scripts_SMARD.py` line 227): the
column label is the tuple (resource, variant), whose lowered string
representation contains "consumption" exactly when one of the two
components does. -/
def isConsumptionLabel (resource variant : String) : Bool :=
  charListContains (resource.data.map Char.toLower) "consumption".data ||
  charListContains (variant.data.map Char.toLower) "consumption".data

/-- One (resource, variant) value column of the weekly German per-type
table, e.g. ("Hydro Pumped Storage", "Actual Consumption"). -/
structure TypedColumn where
  resource : String
  variant : String
  values : List (Option ℚ)

/-- One iteration of the netting loop of `download_DE_per_type_data`
(`download_scripts_SMARD.py` lines 224-234): multiply a consumption
column by -1, then either create the `df_agg[column[0]]` column or add to
it elementwise — pandas `+` and `*` propagate NaN. -/
def addColumn (acc : List (String × List (Option ℚ))) (c : TypedColumn) :
    List (String × List (Option ℚ)) :=
  let data := if isConsumptionLabel c.resource c.variant
    then c.values.map (Option.map (fun v => v * (-1))) else c.values
  if acc.any (fun p => p.1 == c.resource) then
    acc.map (fun p => if p.1 = c.resource then (p.1, List.zipWith optAdd p.2 data) else p)
  else acc ++ [(c.resource, data)]

/-- The whole `nett=True` aggregation pass of `download_DE_per_type_data`
(`download_scripts_SMARD.py` lines 218-236), iterating over the weekly
table's columns starting from an empty `df_agg`. -/
def nettAggregate (cols : List TypedColumn) : List (String × List (Option ℚ)) :=
  cols.foldl addColumn []

/-- Claim C3, counterexample.  Generation `G = [some 5, some 3]` and
consumption `C = [some 2, none]` for the same resource type: at index 1
exactly one of the two (G, with value 3) is present, so the claim requires
the netted value `some 3` there; the code computes `G + (C * -1)` with
NaN-propagating pandas addition, which yields no-data (`none`) at index 1,
not `some 3`. -/
theorem C3_counterexample :
    nettAggregate
      [⟨"Hydro Pumped Storage", "Actual Aggregated", [some 5, some 3]⟩,
       ⟨"Hydro Pumped Storage", "Actual Consumption", [some 2, none]⟩] =
      [("Hydro Pumped Storage", [some 3, none])] ∧
    (none : Option ℚ) ≠ some 3 := by
  have h1 : isConsumptionLabel "Hydro Pumped Storage" "Actual Aggregated" = false := by
    decide
  have h2 : isConsumptionLabel "Hydro Pumped Storage" "Actual Consumption" = true := by
    decide
  constructor
  · simp [nettAggregate, addColumn, h1, h2, optAdd]
    norm_num
  · decide

/-- Claim C3, amended.  For a resource type with a generation series `G`
("Actual Aggregated") and a consumption series `C` ("Actual Consumption"),
the netted column is the elementwise NaN-propagating sum `G + (C * -1)`:
at every timestamp where both are present it equals `G - C`, and at every
timestamp where either of the two is absent it is absent (no data), not
the one present value. -/
theorem C3_amended_thm (r : String) (G C : List (Option ℚ))
    (hr : isConsumptionLabel r "Actual Aggregated" = false) :
    nettAggregate [⟨r, "Actual Aggregated", G⟩, ⟨r, "Actual Consumption", C⟩] =
      [(r, List.zipWith optAdd G (C.map (Option.map (fun v => v * (-1)))))] ∧
    (∀ g c : ℚ, optAdd (some g) (Option.map (fun v => v * (-1)) (some c)) = some (g - c)) ∧
    (∀ x : Option ℚ, optAdd x none = none) ∧
    (∀ y : Option ℚ, optAdd none y = none) := by
  refine ⟨?_, ?_, ?_, ?_⟩
  · have hcons : isConsumptionLabel r "Actual Consumption" = true := by
      unfold isConsumptionLabel
      have h2 : charListContains ("Actual Consumption".data.map Char.toLower)
          "consumption".data = true := by decide
      rw [h2, Bool.or_true]
    simp [nettAggregate, addColumn, hr, hcons]
  · intro g c
    simp only [Option.map_some', optAdd]
    congr 1
    ring
  · intro x
    cases x <;> rfl
  · intro y
    rfl

/-- Witness for the amended claim C3 at concrete one-row series with the
generation value present and the consumption value absent. -/
theorem C3_witness :
    nettAggregate
      [⟨"Hydro Pumped Storage", "Actual Aggregated", [some 5]⟩,
       ⟨"Hydro Pumped Storage", "Actual Consumption", [none]⟩] =
      [("Hydro Pumped Storage",
        List.zipWith optAdd [some 5] ([none].map (Option.map (fun v => v * (-1)))))] :=
  (C3_amended_thm "Hydro Pumped Storage" [some 5] [none] (by decide)).1

/-- Timestamp/value normalization of one SMARD JSON `series`
(`download_scripts_SMARD.py` lines 266-275, 346-356, 440-460): each entry
is `(epoch_ms, value)`; the epoch timestamp is converted to
`Europe/Berlin` local time (the timezone conversion is supplied as the
oracle `toLocal`), the value is kept as is. -/
def smardSeriesTable (toLocal : Int → Int) (series : List (Int × Option ℚ)) : Table :=
  series.map (fun p => (toLocal p.1, p.2))

/-- The `df * 4` MWh-per-quarter-hour to average-MW conversion
(`download_scripts_SMARD.py` lines 283-284, 358-359, 468-469); pandas
multiplication keeps NaN cells NaN. -/
def scaleMWhToMW (t : Table) : Table :=
  t.map (fun p => (p.1, p.2.map (fun v => v * 4)))

/-- One resource column of the weekly `_download_DE_per_type_data` table
(`download_scripts_SMARD.py` lines 247-284): normalized series, scaled by
4 on return. -/
def DE_per_type_week (toLocal : Int → Int) (series : List (Int × Option ℚ)) : Table :=
  scaleMWhToMW (smardSeriesTable toLocal series)

/-- The weekly `_download_DE_demand_data` table (`download_scripts_SMARD.py`
lines 333-359): normalized series, scaled by 4 on return. -/
def DE_demand_week (toLocal : Int → Int) (series : List (Int × Option ℚ)) : Table :=
  scaleMWhToMW (smardSeriesTable toLocal series)

/-- One unit column of the weekly `_download_DE_per_unit_data` table
(`download_scripts_SMARD.py` lines 411-469): normalized series, scaled by
4 on return. -/
def DE_per_unit_week (toLocal : Int → Int) (series : List (Int × Option ℚ)) : Table :=
  scaleMWhToMW (smardSeriesTable toLocal series)

/-- The weekly `_download_day_ahead_prices` table
(`download_scripts_SMARD.py` lines 145-172): normalized series, returned
without any rescaling (the hourly price series is not energy). -/
def day_ahead_prices_week (toLocal : Int → Int) (series : List (Int × Option ℚ)) : Table :=
  smardSeriesTable toLocal series

/-- Claim C8.  Every quarter-hourly German series — per-type generation,
demand, per-unit generation — has each present value multiplied by
exactly 4 (MWh per quarter hour to average MW), while the hourly
day-ahead price series is returned with its values unchanged. -/
theorem C8_thm (toLocal : Int → Int) (series : List (Int × Option ℚ)) :
    (DE_per_type_week toLocal series).map Prod.snd =
      series.map (fun p => p.2.map (fun v => v * 4)) ∧
    (DE_demand_week toLocal series).map Prod.snd =
      series.map (fun p => p.2.map (fun v => v * 4)) ∧
    (DE_per_unit_week toLocal series).map Prod.snd =
      series.map (fun p => p.2.map (fun v => v * 4)) ∧
    (day_ahead_prices_week toLocal series).map Prod.snd = series.map Prod.snd := by
  refine ⟨?_, ?_, ?_, ?_⟩ <;>
    simp [DE_per_type_week, DE_demand_week, DE_per_unit_week, day_ahead_prices_week,
      scaleMWhToMW, smardSeriesTable, List.map_map, Function.comp_def]

/-- The ESB 2022 technology shares `IE_GENERATION_TYPES`
(`download_scripts_UK.py` lines 42-50), as exact rationals. -/
def IE_GENERATION_TYPES : List (String × ℚ) :=
  [("Fossil Hard coal", 133803 / 1000000),
   ("Fossil Gas", 715493 / 1000000),
   ("Fossil Oil", 12676 / 1000000),
   ("Hydro Run-of-river and poundage", 23944 / 1000000),
   ("Biomass", 23944 / 1000000),
   ("Hydro Pumped Storage", 8451 / 1000000),
   ("Other", 81690 / 1000000)]

/-- Column lookup by name in a (name, values) list. -/
def colLookup : List (String × List (Option ℚ)) → String → Option (List (Option ℚ))
  | [], _ => none
  | (n, v) :: rest, name => if n = name then some v else colLookup rest name

/-- The per-type synthesis of `_download_IE_per_type_data`
(`download_scripts_UK.py` lines 327-340): `Remaining = Total Generation -
Wind Onshore` (NaN-propagating), one synthesized column `Remaining * share`
per entry of `IE_GENERATION_TYPES`, and the final table keeps the fetched
`Wind Onshore` column plus the seven synthesized ones (the interim
`Total Generation` and `Remaining` columns are dropped). -/
def IE_per_type_columns (wind total : List (Option ℚ)) :
    List (String × List (Option ℚ)) :=
  ("Wind Onshore", wind) ::
    IE_GENERATION_TYPES.map (fun p =>
      (p.1, (List.zipWith optSub total wind).map (Option.map (fun v => v * p.2))))

/-- Claim C9.  In the Irish per-type download, every type column except
Wind Onshore is synthesized: each of the 7 non-wind columns equals its
fixed constant share times `Total Generation - Wind Onshore` at every
timestamp, the Wind Onshore column is the fetched one, and the seven
shares sum to 1.000001 — not exactly 1. -/
theorem C9_thm :
    (IE_GENERATION_TYPES.map Prod.snd).sum = 1000001 / 1000000 ∧
    ((1000001 : ℚ) / 1000000 ≠ 1) ∧
    IE_GENERATION_TYPES.length = 7 ∧
    (∀ (wind total : List (Option ℚ)) (name : String) (share : ℚ),
      (name, share) ∈ IE_GENERATION_TYPES →
        colLookup (IE_per_type_columns wind total) name =
          some ((List.zipWith optSub total wind).map (Option.map (fun v => v * share)))) ∧
    (∀ wind total : List (Option ℚ),
      colLookup (IE_per_type_columns wind total) "Wind Onshore" = some wind) := by
  refine ⟨?_, ?_, rfl, ?_, ?_⟩
  · norm_num [IE_GENERATION_TYPES]
  · norm_num
  · intro wind total name share hmem
    simp only [IE_GENERATION_TYPES, List.mem_cons, List.mem_singleton,
      Prod.mk.injEq, List.not_mem_nil, or_false] at hmem
    rcases hmem with ⟨rfl, rfl⟩ | ⟨rfl, rfl⟩ | ⟨rfl, rfl⟩ | ⟨rfl, rfl⟩ |
      ⟨rfl, rfl⟩ | ⟨rfl, rfl⟩ | ⟨rfl, rfl⟩ <;>
      simp [IE_per_type_columns, IE_GENERATION_TYPES, colLookup]
  · intro wind total
    simp [IE_per_type_columns, colLookup]

/-- Witness for claim C9: the synthesized "Fossil Gas" column at a
concrete one-row pair of fetched columns. -/
theorem C9_witness :
    colLookup (IE_per_type_columns [some 10] [some 30]) "Fossil Gas" =
      some ((List.zipWith optSub [some 30] [some 10]).map
        (Option.map (fun v => v * (715493 / 1000000)))) :=
  C9_thm.2.2.2.1 [some 10] [some 30] "Fossil Gas" (715493 / 1000000)
    (by simp [IE_GENERATION_TYPES])
